import Mathlib

/- Verification of the CLI-Chess engine (pieces.py, board.py, moves.py) against its
natural-language specification. The Python code is shallowly embedded: the board is the
dict `Grid` mapping coordinate pairs to pieces, dict lookups that can raise KeyError are
modelled in the `Except PyErr` monad, and each move-generation function is translated
statement by statement, bugs included. -/

inductive PieceType where
  | EMPTY
  | PAWN
  | ROOK
  | BISHOP
  | QUEEN
  | KNIGHT
  | KING
deriving DecidableEq

inductive Colour where
  | NONE
  | WHITE
  | BLACK
deriving DecidableEq

/-- Colour.value mirrors the Enum values NONE = -1, WHITE = 0, BLACK = 1. -/
def Colour.value : Colour → Int
  | Colour.NONE => -1
  | Colour.WHITE => 0
  | Colour.BLACK => 1

/-- The Piece dataclass of pieces.py: coordinates, colour, kind and move bookkeeping. -/
structure Piece where
  x : Int
  y : Int
  colour : Colour
  type : PieceType
  has_moved : Bool
  moves_made : Nat
  last_moved : Nat
deriving DecidableEq

/-- The default construction Piece(x, y): an empty square marker with default fields. -/
def Piece.default_piece (x y : Int) : Piece :=
  Piece.mk x y Colour.NONE PieceType.EMPTY false 0 0

/-- FEN_MAP of pieces.py as a dict lookup: unknown characters raise (here: none). -/
def FEN_MAP (d : Char) : Option PieceType :=
  if d = 'p' then some PieceType.PAWN
  else if d = 'r' then some PieceType.ROOK
  else if d = 'b' then some PieceType.BISHOP
  else if d = 'q' then some PieceType.QUEEN
  else if d = 'k' then some PieceType.KING
  else if d = 'n' then some PieceType.KNIGHT
  else none

/-- Piece.from_fen: upper case is white, lower case black; kind from FEN_MAP. -/
def Piece.from_fen (x y : Int) (fen : Char) : Option Piece :=
  match FEN_MAP fen.toLower with
  | some t =>
      some (Piece.mk x y (if fen.isUpper then Colour.WHITE else Colour.BLACK) t false 0 0)
  | none => none

/-- Piece.move_to: relocate, set has_moved, bump moves_made. -/
def Piece.move_to (p : Piece) (x y : Int) : Piece :=
  { p with x := x, y := y, has_moved := true, moves_made := p.moves_made + 1 }

/-- Piece.promote_to_queen: only the kind changes. -/
def Piece.promote_to_queen (p : Piece) : Piece :=
  { p with type := PieceType.QUEEN }

/-- The board dict `Grid = dict[Position, Piece]`: a key either has an entry or not. -/
def Grid := (Int × Int) → Option Piece

/-- A dict assignment grid[(k1, k2)] = p. -/
def gridSet (g : Grid) (k : Int × Int) (p : Piece) : Grid :=
  fun q => if q = k then some p else g q

/-- Board.place: store the piece under its own coordinates. -/
def Board.place (g : Grid) (p : Piece) : Grid :=
  gridSet g (p.x, p.y) p

/-- empty_board of board.py: Piece(x, y) placed at every (x, y) with 0 ≤ x, y ≤ 7. -/
def empty_board : Grid :=
  ((List.range 8).flatMap fun x => (List.range 8).map fun y => ((x : Int), (y : Int))).foldl
    (fun g c => Board.place g (Piece.default_piece c.1 c.2)) (fun _ => none)

/-- Python exceptions that the embedded code can raise. `loopFuel` marks loop-iteration
budget exhaustion of the embedding and is never reached on the inputs considered here. -/
inductive PyErr where
  | keyError
  | loopFuel
deriving DecidableEq

/-- Board.piece: dict lookup, raising KeyError on a missing key. -/
def Board.piece (g : Grid) (x y : Int) : Except PyErr Piece :=
  match g (x, y) with
  | some p => Except.ok p
  | none => Except.error PyErr.keyError

/-- Board.empty: whether the square holds the EMPTY marker. -/
def Board.empty (g : Grid) (x y : Int) : Except PyErr Bool := do
  let p ← Board.piece g x y
  return p.type == PieceType.EMPTY

/-- Board.piece_type of board.py. -/
def Board.piece_type (g : Grid) (x y : Int) : Except PyErr PieceType := do
  let p ← Board.piece g x y
  return p.type

/-- get_valid_moves_pawn of moves.py, line by line. `0 < x > 7` chains to
0 < x and x > 7; range(-1, 1, 2) is the one-element range [-1]; a pawn on an
empty-marker square falls through both colour branches and returns Python None. -/
def get_valid_moves_pawn (square : Grid) (x y : Int) :
    Except PyErr (Option (List (Int × Int))) := do
  if (← Board.piece square x y).colour.value = 0 then
    let mut valid_moves : List (Int × Int) := []
    if y = 1 then
      if (← Board.empty square x (y + 2)) then
        valid_moves := valid_moves ++ [(x, y + 2)]
    if 0 < x ∧ 7 < x then
      for i in [(-1 : Int)] do
        if (← Board.piece square (x + i) (y + 1)).colour.value = 1 then
          valid_moves := valid_moves ++ [(x + i, y + 1)]
    else if x = 0 then
      if (← Board.piece square (x + 1) (y + 1)).colour.value = 1 then
        valid_moves := valid_moves ++ [(x + 1, y + 1)]
    else if x = 7 then
      if (← Board.piece square (x - 1) (y + 1)).colour.value = 1 then
        valid_moves := valid_moves ++ [(x - 1, y + 1)]
    if (← Board.empty square x (y + 1)) then
      valid_moves := valid_moves ++ [(x, y + 1)]
    return some valid_moves
  else
    if (← Board.piece square x y).colour.value = 1 then
      let mut valid_moves : List (Int × Int) := []
      if y = 6 then
        if (← Board.empty square x (y - 2)) then
          valid_moves := valid_moves ++ [(x, y - 2)]
      if 0 < x ∧ 7 < x then
        for i in [(-1 : Int)] do
          if (← Board.piece square (x + i) (y - 1)).colour.value = 0 then
            valid_moves := valid_moves ++ [(x + i, y - 1)]
      else if x = 0 then
        if (← Board.piece square (x + 1) (y - 1)).colour.value = 0 then
          valid_moves := valid_moves ++ [(x + 1, y - 1)]
      else if x = 7 then
        if (← Board.piece square (x - 1) (y - 1)).colour.value = 0 then
          valid_moves := valid_moves ++ [(x - 1, y - 1)]
      if (← Board.empty square x (y - 1)) then
        valid_moves := valid_moves ++ [(x, y - 1)]
      return some valid_moves
    else
      return none

/-- Board for C1: a white pawn on the interior file 3 with a black pawn on its
forward-right diagonal. -/
def boardC1 : Grid :=
  Board.place (Board.place empty_board (Piece.mk 3 1 Colour.WHITE PieceType.PAWN false 0 0))
    (Piece.mk 4 2 Colour.BLACK PieceType.PAWN false 0 0)

/-- C1: refuted on the code. The diagonal square (4, 2) is in bounds and holds a black
pawn, yet the white pawn at (3, 1) is given only the forward destinations (3, 3) and
(3, 2): the interior-file capture branch is guarded by the always-false chain 0 < x > 7,
so the capture never enters the destination set. -/
theorem pawn_interior_capture_missing :
    get_valid_moves_pawn boardC1 3 1 = Except.ok (some [((3 : Int), (3 : Int)), (3, 2)]) ∧
    Board.piece boardC1 4 2 =
      Except.ok (Piece.mk 4 2 Colour.BLACK PieceType.PAWN false 0 0) :=
  ⟨rfl, rfl⟩

/-- One while-loop of get_valid_moves_bishop: the condition and step direction vary
between the four loops, the body is shared. Each iteration steps first, then tests the
stepped-to square; the loop returns the final (x, y) because the Python code carries the
mutated x, y into the next loop. The fuel bound only caps iteration count; every run
below ends by break, condition failure or KeyError well within it. -/
def bishop_loop (square : Grid) (ix iy : Int) (cond : Int → Int → Bool) (dx dy : Int) :
    Nat → Int → Int → List (Int × Int) → Except PyErr (Int × Int × List (Int × Int))
  | 0, _, _, _ => Except.error PyErr.loopFuel
  | Nat.succ fuel, x, y, acc =>
    if cond x y then do
      let x := x + dx
      let y := y + dy
      if (← Board.empty square x y) then
        bishop_loop square ix iy cond dx dy fuel x y (acc ++ [(x, y)])
      else
        if (← Board.piece square x y).colour.value ≠ (← Board.piece square ix iy).colour.value then
          Except.ok (x, y, acc ++ [(x, y)])
        else
          Except.ok (x, y, acc)
    else
      Except.ok (x, y, acc)

/-- get_valid_moves_bishop of moves.py: four while-loops with `or` conditions, sharing
the mutated x, y from loop to loop (only init_x, init_y remember the origin). -/
def get_valid_moves_bishop (square : Grid) (x y : Int) :
    Except PyErr (List (Int × Int)) := do
  let init_x := x
  let init_y := y
  let (x1, y1, vm1) ←
    bishop_loop square init_x init_y (fun a b => decide (a > 0) || decide (b < 8)) (-1) 1 64 x y []
  let (x2, y2, vm2) ←
    bishop_loop square init_x init_y (fun a b => decide (a < 8) || decide (b < 8)) 1 1 64 x1 y1 vm1
  let (x3, y3, vm3) ←
    bishop_loop square init_x init_y (fun a b => decide (a > -1) || decide (b > -1)) (-1) (-1) 64 x2 y2 vm2
  let (_, _, vm4) ←
    bishop_loop square init_x init_y (fun a b => decide (a < 8) || decide (b > -1)) 1 (-1) 64 x3 y3 vm3
  return vm4

/-- Python range(1, stop) as a list of integers: [1, ..., stop-1], empty for stop ≤ 1. -/
def pyRange1 (stop : Int) : List Int :=
  ((List.range stop.toNat).drop 1).map Int.ofNat

/-- get_valid_moves_rook of moves.py. The left-ray comparison reads
square.piece(y, x - i) — coordinates swapped — exactly as in the source. -/
def get_valid_moves_rook (square : Grid) (x y : Int) :
    Except PyErr (List (Int × Int)) := do
  let mut valid_moves : List (Int × Int) := []
  for i in pyRange1 (8 - x) do
    if (← Board.empty square (x + i) y) then
      valid_moves := valid_moves ++ [(x + i, y)]
    else
      if (← Board.piece square (x + i) y).colour.value ≠ (← Board.piece square x y).colour.value then
        valid_moves := valid_moves ++ [(x + i, y)]
        break
      else
        break
  for i in pyRange1 (x + 1) do
    if (← Board.empty square (x - i) y) then
      valid_moves := valid_moves ++ [(x - i, y)]
    else
      if (← Board.piece square x y).colour.value ≠ (← Board.piece square y (x - i)).colour.value then
        valid_moves := valid_moves ++ [(x - i, y)]
        break
      else
        break
  for i in pyRange1 (8 - y) do
    if (← Board.empty square x (y + i)) then
      valid_moves := valid_moves ++ [(x, y + i)]
    else
      if (← Board.piece square x y).colour.value ≠ (← Board.piece square x (y + i)).colour.value then
        valid_moves := valid_moves ++ [(x, y + i)]
        break
      else
        break
  for i in pyRange1 (y + 1) do
    if (← Board.empty square x (y - i)) then
      valid_moves := valid_moves ++ [(x, y - i)]
    else
      if (← Board.piece square x y).colour.value ≠ (← Board.piece square x (y - i)).colour.value then
        valid_moves := valid_moves ++ [(x, y - i)]
        break
      else
        break
  return valid_moves

/-- get_valid_moves_knight of moves.py with its eight offsets verbatim, including
(x + 2, y - 2) where a knight move would be (x + 1, y - 2). -/
def get_valid_moves_knight (square : Grid) (x y : Int) :
    Except PyErr (List (Int × Int)) := do
  let mut valid_moves : List (Int × Int) := []
  let possible_moves : List (Int × Int) :=
    [(x - 2, y + 1), (x - 1, y + 2), (x + 1, y + 2), (x + 2, y + 1),
     (x + 2, y - 1), (x + 2, y - 2), (x - 1, y - 2), (x - 2, y - 1)]
  for mv in possible_moves do
    let move_x := mv.1
    let move_y := mv.2
    if 8 > move_x ∧ move_x > -1 ∧ 8 > move_y ∧ move_y > -1 then
      if (← Board.empty square move_x move_y) = true then
        valid_moves := valid_moves ++ [mv]
      else
        if (← Board.piece square move_x move_y).colour.value ≠ (← Board.piece square x y).colour.value then
          valid_moves := valid_moves ++ [mv]
  return valid_moves

/-- get_valid_moves_queen of moves.py: a list literal holding the single element
bishop-result + rook-result, so the result is a nested list, not a flat one. -/
def get_valid_moves_queen (square : Grid) (x y : Int) :
    Except PyErr (List (List (Int × Int))) := do
  let b ← get_valid_moves_bishop square x y
  let r ← get_valid_moves_rook square x y
  return [b ++ r]

/-- get_possible_moves_king of moves.py: the eight unit offsets, queried with no
bounds check before the dict lookup. -/
def get_possible_moves_king (square : Grid) (x y : Int) :
    Except PyErr (List (Int × Int)) := do
  let mut possible_moves : List (Int × Int) := []
  let moves : List (Int × Int) :=
    [(x, y + 1), (x + 1, y + 1), (x + 1, y), (x + 1, y - 1),
     (x, y - 1), (x - 1, y - 1), (x - 1, y), (x - 1, y + 1)]
  for mv in moves do
    if (← Board.empty square mv.1 mv.2) then
      possible_moves := possible_moves ++ [mv]
    else
      if (← Board.piece square mv.1 mv.2).colour.value ≠ (← Board.piece square x y).colour.value then
        possible_moves := possible_moves ++ [mv]
  return possible_moves

/-- Board for C2: a lone white bishop on the interior square (3, 3). -/
def boardC2 : Grid :=
  Board.place empty_board (Piece.mk 3 3 Colour.WHITE PieceType.BISHOP false 0 0)

/-- C2: refuted on the code for the bishop. With the origin (3, 3) in range on a full
board, the top-left loop condition `x > 0 or y < 8` keeps stepping past the edge and the
generator performs the out-of-range lookup (-1, 7), raising KeyError: the out-of-range
board-lookup branch is reachable from an in-range origin. -/
theorem bishop_ray_escapes_board :
    get_valid_moves_bishop boardC2 3 3 = Except.error PyErr.keyError ∧
    boardC2 (-1, 7) = none :=
  ⟨rfl, rfl⟩

/-- Board for C3: a white rook at (2, 0) whose left neighbour (1, 0) is a white pawn. -/
def boardC3 : Grid :=
  Board.place (Board.place empty_board (Piece.mk 2 0 Colour.WHITE PieceType.ROOK false 0 0))
    (Piece.mk 1 0 Colour.WHITE PieceType.PAWN false 0 0)

/-- C3: refuted on the code. The rook's left ray stops at the occupied square (1, 0) but
includes it even though its occupant is the rook's own colour: the code compares the
mover's colour against square (y, x - i) = (0, 1) — an empty square — instead of
(1, 0), so the friendly pawn is appended as if it were capturable. -/
theorem rook_left_ray_includes_friendly :
    get_valid_moves_rook boardC3 2 0 =
      Except.ok [((3 : Int), (0 : Int)), (4, 0), (5, 0), (6, 0), (7, 0), (1, 0),
        (2, 1), (2, 2), (2, 3), (2, 4), (2, 5), (2, 6), (2, 7)] ∧
    Board.piece boardC3 1 0 =
      Except.ok (Piece.mk 1 0 Colour.WHITE PieceType.PAWN false 0 0) ∧
    Board.piece boardC3 2 0 =
      Except.ok (Piece.mk 2 0 Colour.WHITE PieceType.ROOK false 0 0) :=
  ⟨rfl, rfl, rfl⟩

/-- Board for C4: a white pawn on its starting square (0, 1) with a black knight
directly in front of it on (0, 2) and (0, 3) empty. -/
def boardC4 : Grid :=
  Board.place (Board.place empty_board (Piece.mk 0 1 Colour.WHITE PieceType.PAWN false 0 0))
    (Piece.mk 0 2 Colour.BLACK PieceType.KNIGHT false 0 0)

/-- C4: refuted on the code. The two-square step (0, 3) is generated although the
intermediate square (0, 2) is occupied: the code tests only y == 1 and the emptiness of
the target square, never the intermediate one, so the pawn jumps over the blocker. -/
theorem pawn_two_step_ignores_blocker :
    get_valid_moves_pawn boardC4 0 1 = Except.ok (some [((0 : Int), (3 : Int))]) ∧
    Board.empty boardC4 0 2 = Except.ok false :=
  ⟨rfl, rfl⟩

/-- Board for C6: a white queen at (1, 0) boxed in diagonally by white pawns at (0, 1)
and (1, 2), one of the rare layouts on which the bishop helper terminates normally. -/
def boardC6 : Grid :=
  Board.place
    (Board.place (Board.place empty_board (Piece.mk 1 0 Colour.WHITE PieceType.QUEEN false 0 0))
      (Piece.mk 0 1 Colour.WHITE PieceType.PAWN false 0 0))
    (Piece.mk 1 2 Colour.WHITE PieceType.PAWN false 0 0)

/-- C6: refuted on the code. Here the bishop geometry yields no squares and the rook
geometry yields eight, so the flat union has eight squares — but the queen helper
returns the one-element list [bishop + rook] whose sole element is itself the list of
squares: a nested list, not the flat set of squares the spec requires. -/
theorem queen_result_is_nested :
    get_valid_moves_queen boardC6 1 0 =
      Except.ok [[((2 : Int), (0 : Int)), (3, 0), (4, 0), (5, 0), (6, 0), (7, 0), (0, 0), (1, 1)]] ∧
    get_valid_moves_bishop boardC6 1 0 = Except.ok [] ∧
    get_valid_moves_rook boardC6 1 0 =
      Except.ok [((2 : Int), (0 : Int)), (3, 0), (4, 0), (5, 0), (6, 0), (7, 0), (0, 0), (1, 1)] :=
  ⟨rfl, rfl, rfl⟩

/-- Board for C7: a lone white knight on (3, 3). -/
def boardC7 : Grid :=
  Board.place empty_board (Piece.mk 3 3 Colour.WHITE PieceType.KNIGHT false 0 0)

/-- C7: refuted on the code. On an empty board the knight at (3, 3) is given (5, 1),
whose displacement from the origin is (+2, -2) — not of shape (±1, ±2)/(±2, ±1) — while
the true knight destination (4, 1), displacement (+1, -2), is absent: the sixth entry of
the offset list reads (x + 2, y - 2) instead of (x + 1, y - 2). -/
theorem knight_offset_list_is_wrong :
    get_valid_moves_knight boardC7 3 3 =
      Except.ok [((1 : Int), (4 : Int)), (2, 5), (4, 5), (5, 4), (5, 2), (5, 1), (2, 1), (1, 2)] ∧
    ((5 : Int), (1 : Int)) ∈
      [((1 : Int), (4 : Int)), (2, 5), (4, 5), (5, 4), (5, 2), (5, 1), (2, 1), (1, 2)] ∧
    ((4 : Int), (1 : Int)) ∉
      [((1 : Int), (4 : Int)), (2, 5), (4, 5), (5, 4), (5, 2), (5, 1), (2, 1), (1, 2)] :=
  ⟨rfl, by decide, by decide⟩

/-- Board for C8: a lone white king in the corner (0, 0). -/
def boardC8 : Grid :=
  Board.place empty_board (Piece.mk 0 0 Colour.WHITE PieceType.KING false 0 0)

/-- C8: refuted on the code. The king generator has no bounds filter: for the corner
king at (0, 0) it looks the off-board offset (1, -1) up in the board dict and raises
KeyError instead of skipping it. -/
theorem king_corner_raises_lookup_error :
    get_possible_moves_king boardC8 0 0 = Except.error PyErr.keyError ∧
    boardC8 (1, -1) = none :=
  ⟨rfl, rfl⟩

/-- The Python value a MOVE_LISTS helper can return: a flat list of squares, the
queen's nested list of lists, or the pawn's fall-through None. -/
inductive PyVal where
  | flat : List (Int × Int) → PyVal
  | nested : List (List (Int × Int)) → PyVal
  | pyNone : PyVal
deriving DecidableEq

/-- MOVE_LISTS of board.py: the dispatch dict from piece kind to geometry helper. It
has no entry for EMPTY, so looking that key up raises (here: none). -/
def MOVE_LISTS : PieceType → Option (Grid → Int → Int → Except PyErr PyVal)
  | PieceType.PAWN => some fun g x y =>
      (get_valid_moves_pawn g x y).map fun r =>
        match r with
        | some l => PyVal.flat l
        | none => PyVal.pyNone
  | PieceType.BISHOP => some fun g x y => (get_valid_moves_bishop g x y).map PyVal.flat
  | PieceType.KNIGHT => some fun g x y => (get_valid_moves_knight g x y).map PyVal.flat
  | PieceType.ROOK => some fun g x y => (get_valid_moves_rook g x y).map PyVal.flat
  | PieceType.QUEEN => some fun g x y => (get_valid_moves_queen g x y).map PyVal.nested
  | PieceType.KING => some fun g x y => (get_possible_moves_king g x y).map PyVal.flat
  | PieceType.EMPTY => none

/-- Board.get_valid_moves of board.py: `return MOVE_LISTS[self.piece_type(x, y)]` — it
returns the dict entry itself, an unapplied function, and raises KeyError when the
square's kind has no dict entry (the EMPTY kind). -/
def Board.get_valid_moves (g : Grid) (x y : Int) :
    Except PyErr (Grid → Int → Int → Except PyErr PyVal) := do
  let t ← Board.piece_type g x y
  match MOVE_LISTS t with
  | some f => return f
  | none => Except.error PyErr.keyError

/-- fen.split on the slash character, over the string's character list. -/
def pySplitSlash : List Char → List (List Char)
  | [] => [[]]
  | c :: rest =>
    if c = '/' then [] :: pySplitSlash rest
    else
      match pySplitSlash rest with
      | [] => [[c]]
      | r :: rs => (c :: r) :: rs

/-- The inner `for i in range(int(x))` of Board.from_fen: place an empty Piece for each
run element, bumping `extra` on every iteration after the first. -/
def fen_digit_loop (y : Int) (indx : Nat) : Grid → Nat → List Nat → Grid × Nat
  | g, extra, [] => (g, extra)
  | g, extra, i :: rest =>
    let extra := if 0 < i then extra + 1 else extra
    fen_digit_loop y indx
      (Board.place g (Piece.default_piece ((indx : Int) + (extra : Int)) y)) extra rest

/-- One row of Board.from_fen: digits place runs of empty squares, letters place pieces
via Piece.from_fen; an unknown letter raises (here: none). -/
def fen_row_loop (indy : Nat) : Grid → Nat → Nat → List Char → Option Grid
  | g, _, _, [] => some g
  | g, indx, extra, ch :: rest =>
    if ch.isDigit then
      let ge := fen_digit_loop ((7 : Int) - (indy : Int)) indx g extra
        (List.range (ch.toNat - 48))
      fen_row_loop indy ge.1 (indx + 1) ge.2 rest
    else
      match Piece.from_fen ((indx : Int) + (extra : Int)) ((7 : Int) - (indy : Int)) ch with
      | some p => fen_row_loop indy (Board.place g p) (indx + 1) extra rest
      | none => none

/-- The outer row loop of Board.from_fen: row index indy maps to rank 7 - indy. -/
def fen_rows_loop : Grid → Nat → List (List Char) → Option Grid
  | g, _, [] => some g
  | g, indy, row :: rest =>
    match fen_row_loop indy g 0 0 row with
    | some g2 => fen_rows_loop g2 (indy + 1) rest
    | none => none

/-- Board.from_fen of board.py: start from the empty board, split the string on
slashes, and fill in each row. -/
def Board.from_fen (fen : String) : Option Grid :=
  fen_rows_loop empty_board 0 (pySplitSlash fen.data)

/-- The FEN string of the standard start position, as used in main.py. -/
def startFen : String :=
  "rnbqkbnr/pppppppp/8/8/8/8/PPPPPPPP/RNBQKBNR"

/-- The start position built by Board.from_fen. -/
def startGrid : Grid :=
  (Board.from_fen startFen).getD empty_board

/-- C5: refuted on the code. On the start position the square (0, 3) is Empty, and the
pseudo-legal move query raises KeyError — MOVE_LISTS has no entry for the EMPTY kind —
instead of yielding the empty set; moreover, as the result type records, for occupied
squares the query returns the dispatch-dict entry itself, an unapplied helper function,
never the helper's destination set. -/
theorem get_valid_moves_on_empty_square_raises :
    Board.get_valid_moves startGrid 0 3 = Except.error PyErr.keyError ∧
    Board.piece_type startGrid 0 3 = Except.ok PieceType.EMPTY ∧
    MOVE_LISTS PieceType.EMPTY = none :=
  ⟨rfl, rfl, rfl⟩

/-- Modelled from the spec: the Move Applier is missing from src — board.py has no move
method; main.py's commented-out driver calls `x.move(origin, destination)` but the
method it names is nowhere defined. Following section 4.6, the destination occupant is
discarded, the moving piece is relocated with Piece.move_to and stored with Board.place,
the origin square becomes Empty, and application fails on an Empty origin. -/
def Board.move (g : Grid) (fx fy tx ty : Int) : Option Grid :=
  match g (fx, fy) with
  | none => none
  | some p =>
    if p.type = PieceType.EMPTY then none
    else
      some (Board.place (Board.place g (Piece.move_to p tx ty)) (Piece.default_piece fx fy))

/-- C9: applying a move relocates the moving piece to the destination with has_moved
set and the move counter incremented by one, the origin becomes the Empty piece, and
whatever occupied the destination is discarded (the destination maps to the moved piece
unconditionally). -/
theorem board_move_applies (g : Grid) (fx fy tx ty : Int) (p : Piece)
    (hp : g (fx, fy) = some p) (hne : p.type ≠ PieceType.EMPTY)
    (hd : ((fx, fy) : Int × Int) ≠ (tx, ty)) :
    ∃ g2, Board.move g fx fy tx ty = some g2 ∧
      g2 (fx, fy) = some (Piece.default_piece fx fy) ∧
      g2 (tx, ty) = some (Piece.move_to p tx ty) ∧
      (Piece.move_to p tx ty).x = tx ∧
      (Piece.move_to p tx ty).y = ty ∧
      (Piece.move_to p tx ty).has_moved = true ∧
      (Piece.move_to p tx ty).moves_made = p.moves_made + 1 ∧
      (Piece.move_to p tx ty).type = p.type ∧
      (Piece.move_to p tx ty).colour = p.colour := by
  refine ⟨Board.place (Board.place g (Piece.move_to p tx ty)) (Piece.default_piece fx fy),
    ?_, ?_, ?_, rfl, rfl, rfl, rfl, rfl, rfl⟩
  · unfold Board.move
    rw [hp]
    simp [hne]
  · simp [Board.place, gridSet, Piece.default_piece]
  · have hd2 : ((tx, ty) : Int × Int) ≠ (fx, fy) := Ne.symm hd
    simp [Board.place, gridSet, Piece.default_piece, Piece.move_to, hd2]

/-- The white pawn standing on (0, 1) in the start position. -/
def startPawn : Piece :=
  Piece.mk 0 1 Colour.WHITE PieceType.PAWN false 0 0

/-- Witness for C9: the claim's concrete scenario — the start position with the move
(0, 1) → (0, 3) applied leaves (0, 1) Empty and (0, 3) holding a pawn with has_moved
true and move counter one. -/
theorem board_move_applies_witness :
    ∃ g2, Board.move startGrid 0 1 0 3 = some g2 ∧
      g2 (0, 1) = some (Piece.default_piece 0 1) ∧
      g2 (0, 3) = some (Piece.move_to startPawn 0 3) ∧
      (Piece.move_to startPawn 0 3).x = 0 ∧
      (Piece.move_to startPawn 0 3).y = 3 ∧
      (Piece.move_to startPawn 0 3).has_moved = true ∧
      (Piece.move_to startPawn 0 3).moves_made = startPawn.moves_made + 1 ∧
      (Piece.move_to startPawn 0 3).type = startPawn.type ∧
      (Piece.move_to startPawn 0 3).colour = startPawn.colour :=
  board_move_applies startGrid 0 1 0 3 startPawn (by decide) (by decide) (by decide)

/-- The colour/kind invariant of the spec's data model: a non-Empty piece has a
non-None colour, an Empty piece has colour None. -/
def piece_invariant (p : Piece) : Prop :=
  (p.type ≠ PieceType.EMPTY → p.colour ≠ Colour.NONE) ∧
  (p.type = PieceType.EMPTY → p.colour = Colour.NONE)

instance (p : Piece) : Decidable (piece_invariant p) :=
  inferInstanceAs (Decidable
    ((p.type ≠ PieceType.EMPTY → p.colour ≠ Colour.NONE) ∧
     (p.type = PieceType.EMPTY → p.colour = Colour.NONE)))

/-- C10 counterexample: promote_to_queen applied to the default empty piece Piece(0, 0)
yields kind QUEEN while the colour stays NONE, so after this mutating operation the
invariant fails. -/
theorem promote_empty_piece_violates_invariant :
    (Piece.promote_to_queen (Piece.default_piece 0 0)).type = PieceType.QUEEN ∧
    (Piece.promote_to_queen (Piece.default_piece 0 0)).colour = Colour.NONE ∧
    ¬ piece_invariant (Piece.promote_to_queen (Piece.default_piece 0 0)) := by
  decide

/-- Every kind stored in FEN_MAP is an actual piece kind, never the EMPTY marker. -/
theorem FEN_MAP_kind_not_empty (d : Char) (t : PieceType) (h : FEN_MAP d = some t) :
    t ≠ PieceType.EMPTY := by
  unfold FEN_MAP at h
  split_ifs at h <;> injection h with h2 <;> subst h2 <;> decide

/-- A piece built by Piece.from_fen satisfies the invariant: its colour is WHITE or
BLACK and its kind comes from FEN_MAP. -/
theorem from_fen_piece_invariant (x y : Int) (c : Char) (p : Piece)
    (hf : Piece.from_fen x y c = some p) : piece_invariant p := by
  unfold Piece.from_fen at hf
  cases hF : FEN_MAP c.toLower with
  | none => rw [hF] at hf; exact Option.noConfusion hf
  | some t =>
    rw [hF] at hf
    injection hf with h2
    subst h2
    have ht := FEN_MAP_kind_not_empty c.toLower t hF
    constructor
    · intro _
      by_cases hU : c.isUpper <;> simp [hU]
    · intro h
      exact absurd h ht

/-- C10 amended: the invariant holds after construction — the default empty piece and
any piece built from a FEN character — and is preserved by move_to for every piece and
by promote_to_queen for every non-Empty piece; promote_to_queen applied to an Empty
piece yields kind Queen with colour None, violating the invariant. -/
theorem piece_invariant_maintained (x y a b : Int) (c : Char) (p q r : Piece)
    (hf : Piece.from_fen x y c = some p) (hq : piece_invariant q)
    (hr : piece_invariant r) (hne : r.type ≠ PieceType.EMPTY) :
    piece_invariant (Piece.default_piece x y) ∧
    piece_invariant p ∧
    piece_invariant (Piece.move_to q a b) ∧
    piece_invariant (Piece.promote_to_queen r) := by
  refine ⟨⟨fun h => absurd rfl h, fun _ => rfl⟩, from_fen_piece_invariant x y c p hf, hq, ?_⟩
  exact ⟨fun _ => hr.1 hne, fun h => PieceType.noConfusion h⟩

/-- Witness for C10 at concrete inputs: the default piece at (2, 7), the white queen
built from the FEN letter Q, the default empty piece Piece(0, 0) moved to (0, 2) — the
move_to conjunct covers Empty pieces too — and a white pawn promoted. -/
theorem piece_invariant_maintained_witness :
    piece_invariant (Piece.default_piece 2 7) ∧
    piece_invariant (Piece.mk 2 7 Colour.WHITE PieceType.QUEEN false 0 0) ∧
    piece_invariant (Piece.move_to (Piece.default_piece 0 0) 0 2) ∧
    piece_invariant
      (Piece.promote_to_queen (Piece.mk 0 1 Colour.WHITE PieceType.PAWN false 0 0)) :=
  piece_invariant_maintained 2 7 0 2 'Q' (Piece.mk 2 7 Colour.WHITE PieceType.QUEEN false 0 0)
    (Piece.default_piece 0 0) (Piece.mk 0 1 Colour.WHITE PieceType.PAWN false 0 0)
    (by decide) (by decide) (by decide) (by decide)
